import Mathlib

/-!
# Verification of the Aragorn upload orchestration engine

Shallow embedding of `packages/aragorn-app-main/src/uploaderManager.ts`
(the `UploaderManager` class), the IPC glue and the templated HTTP
uploader (`CustomUploader`).  External collaborators (settings store,
profile store, backend registry, clipboard, notification surface, the
`form-data`/`axios`/`mime`/`uuid` libraries) are modelled as explicit
environment records of pure functions; all side effects performed by the
code (notifications shown, history appends, IPC pushes, clipboard
writes) are collected into output records.  JavaScript exceptions are
modelled with `Except String`.
-/

namespace Aragorn

/-- A notification that was shown (`new Notification({...}).show()`):
title, body and the `silent` flag. -/
structure Noti where
  title : String
  body : String
  silent : Bool := false
deriving Repr, DecidableEq

/-- The user preference set read from `setting.configuration`. -/
structure AppConfig where
  urlType : String
  autoCopy : Bool
  autoRecover : Bool
  sound : Bool
  showNotifaction : Bool
deriving Repr, DecidableEq

/-- `UploadedFileInfo` from `uploaderManager.ts` (the `size` field is
never written on this code path and is omitted). -/
structure UploadedFileInfo where
  id : String
  name : String
  url : Option String := none
  type : String
  uploaderProfileId : String
  path : String
  date : Nat
  errorMessage : Option String := none
deriving Repr, DecidableEq

/-- A backend upload response: `SuccessResponse` (its `data` modelled by
the `url` it carries) or `FailResponse` (its `desc`). -/
inductive UpRes where
  | success (url : String)
  | failure (desc : String)
deriving Repr, DecidableEq

/-- A backend capability instance as seen by the orchestrator: the
required `upload` operation (arguments: file path, generated name,
directory path, isFromFileManage; a thrown exception is `Except.error`)
and the optional file-management operations.  `changeOptions` mutates
shared state and is recorded by the orchestrator model instead. -/
structure UploaderBehavior where
  uploadFn : String → String → Option String → Bool → Except String UpRes
  getFileList : Option (Option String → List String) := none
  deleteFile : Option (List String → Bool) := none
  createDirectory : Option (String → Bool) := none

/-- `UploaderProfile`: id, backend name and the stored option list. -/
structure UploaderProfile where
  id : String
  uploaderName : String
  uploaderOptions : List (String × String)
deriving Repr, DecidableEq

/-- The ambient state `UploaderManager.upload` reads: setting store,
profile store, backend registry (`core.getUploaderByName`), clipboard,
window state, and the `uuid`/`path.extname`/`mime.lookup`/`Date.now`
libraries (per-file generators are indexed by file position). -/
structure Env where
  defaultUploaderProfileId : String
  uploaderProfiles : List UploaderProfile
  registry : String → Option UploaderBehavior
  config : AppConfig
  clipboardText : String
  winDestroyed : Bool
  genId : Nat → String
  genName : Nat → String
  extname : String → String
  mimeLookup : String → Option String
  now : Nat

/-- Effects and return value of one `handleSingleUploaded` call.
`scheduledRestores` / `scheduledNotifications` record the 5-second
`setTimeout` clipboard restoration and its notification. -/
structure SingleOut where
  notifications : List Noti := []
  scheduledNotifications : List Noti := []
  clipboardWrites : List String := []
  scheduledRestores : List String := []
  retVal : Option String := none
deriving Repr, DecidableEq

/-- All observable effects of one `UploaderManager.upload` call.
`history` records each `history.add` call with its argument list;
`backendCalls` counts `uploader.upload` invocations; `returnedFalse`
marks the early `return false` of the resolution-failure branches;
`optionsApplied` records the `uploader.changeOptions` argument. -/
structure UploadOut where
  notifications : List Noti := []
  scheduledNotifications : List Noti := []
  history : List (List UploadedFileInfo) := []
  ipcEvents : List String := []
  clipboardWrites : List String := []
  scheduledRestores : List String := []
  backendCalls : Nat := 0
  returnedFalse : Bool := false
  optionsApplied : Option (List (String × String)) := none
deriving Repr, DecidableEq

/-- JavaScript `x || ''` on an optional string (both `undefined` and the
falsy `""` collapse to `""`). -/
def jsOrEmpty : Option String → String
  | some s => s
  | none => ""

/-- JavaScript `x || fallback`: `undefined` and `""` are falsy. -/
def jsOrFallback : Option String → String → String
  | some s, d => if s = "" then d else s
  | none, d => d

/-- Rendering an optional string inside a template literal: JavaScript
prints `undefined` for a missing value. -/
def jsShow : Option String → String
  | some s => s
  | none => "undefined"

/-- Message of the TypeError raised by reading `failFile.errorMessage`
when `failFile` is `undefined` (exact wording is runtime-dependent). -/
def undefinedReadErrorMessage : String :=
  "TypeError: cannot read errorMessage of undefined"

/-- `handleBatchUploaded`: the one summary notification for a batch. -/
def handleBatchUploaded (successFilesCount failFilesCount : Nat) : Noti :=
  if failFilesCount = 0 then
    ⟨"批量上传成功", "总共" ++ toString successFilesCount ++ "个文件", false⟩
  else if successFilesCount = 0 then
    ⟨"批量上传失败", "总共" ++ toString failFilesCount ++ "个文件", false⟩
  else
    ⟨"批量上传结束", "成功" ++ toString successFilesCount ++ "个，失败" ++ toString failFilesCount ++ "个", false⟩

/-- `handleSingleUploaded(successFile, failFile)`.  The switch on
`urlType` falls into `default: return successFile.url` for unrecognized
values; the failure branch reads `failFile.errorMessage`, which throws
when `failFile` is `undefined` (modelled by `Except.error`).
`notifications` lists only the notifications actually shown (the
success ones are gated by `showNotifaction`). -/
def handleSingleUploaded (cfg : AppConfig) (clipText : String)
    (successFile failFile : Option UploadedFileInfo) : Except String SingleOut :=
  match successFile with
  | some sf =>
    let fmt : Option (Option String) :=
      if cfg.urlType = "URL" then some sf.url
      else if cfg.urlType = "HTML" then
        some (some ("<img src=\"" ++ jsShow sf.url ++ "\" />"))
      else if cfg.urlType = "Markdown" then
        some (some ("![" ++ jsShow sf.url ++ "](" ++ jsShow sf.url ++ ")"))
      else none
    match fmt with
    | none => .ok { retVal := sf.url }
    | some clipboardUrl =>
      if cfg.autoCopy then
        let preClipBoardText := if cfg.autoRecover then clipText else ""
        .ok { clipboardWrites := [jsOrEmpty clipboardUrl]
              notifications :=
                if cfg.showNotifaction then
                  [⟨"上传成功", "链接已自动复制到粘贴板", !cfg.sound⟩]
                else []
              scheduledRestores := if cfg.autoRecover then [preClipBoardText] else []
              scheduledNotifications :=
                if cfg.autoRecover then
                  [⟨"粘贴板已恢复", "已自动恢复上次粘贴板中的内容", !cfg.sound⟩]
                else [] }
      else
        .ok { notifications :=
                if cfg.showNotifaction then
                  [⟨"上传成功", jsOrEmpty clipboardUrl, !cfg.sound⟩]
                else [] }
  | none =>
    match failFile with
    | some ff =>
      .ok { notifications := [⟨"上传失败", jsOrFallback ff.errorMessage "错误未捕获", false⟩] }
    | none => .error undefinedReadErrorMessage

/-- `mime.lookup(file) || '-'`. -/
def mkFileType (env : Env) (file : String) : String :=
  match env.mimeLookup file with
  | some s => if s = "" then "-" else s
  | none => "-"

/-- One iteration of `files.map(async file => ...)`: build `baseInfo`,
call the backend upload and classify the outcome; a thrown exception is
`Except.error`.  The success record merges `res.data` (its url); the
failure record carries `errorMessage := res.desc`. -/
def processFile (env : Env) (pid : String) (u : UploaderBehavior)
    (dir : Option String) (mng : Bool) (i : Nat) (file : String) :
    Except String (Bool × UploadedFileInfo) :=
  let fileName := env.genName i ++ env.extname file
  let baseInfo : UploadedFileInfo :=
    { id := env.genId i
      name := fileName
      type := mkFileType env file
      uploaderProfileId := pid
      path := file
      date := env.now }
  match u.uploadFn file fileName dir mng with
  | .error e => .error e
  | .ok (.success url) => .ok (true, { baseInfo with url := some url })
  | .ok (.failure desc) => .ok (false, { baseInfo with errorMessage := some desc })

/-- The per-file fan-out, sequentialized in file order (the model's
deterministic completion order); `i` indexes the generators. -/
def runFilesAux (env : Env) (pid : String) (u : UploaderBehavior)
    (dir : Option String) (mng : Bool) : Nat → List String →
    List (Except String (Bool × UploadedFileInfo))
  | _, [] => []
  | i, f :: fs =>
    processFile env pid u dir mng i f :: runFilesAux env pid u dir mng (i + 1) fs

def runFiles (env : Env) (pid : String) (u : UploaderBehavior)
    (dir : Option String) (mng : Bool) (files : List String) :
    List (Except String (Bool × UploadedFileInfo)) :=
  runFilesAux env pid u dir mng 0 files

/-- The first rejection seen by `Promise.all` (none if every per-file
promise fulfilled). -/
def firstErr : List (Except String (Bool × UploadedFileInfo)) → Option String
  | [] => none
  | .error e :: _ => some e
  | .ok _ :: rest => firstErr rest

/-- The fulfilled per-file outcomes, in completion order. -/
def okResults : List (Except String (Bool × UploadedFileInfo)) →
    List (Bool × UploadedFileInfo)
  | [] => []
  | .error _ :: rest => okResults rest
  | .ok a :: rest => a :: okResults rest

/-- `successRes`: records pushed on the `res.success` branch. -/
def successResOf (rs : List (Except String (Bool × UploadedFileInfo))) :
    List UploadedFileInfo :=
  ((okResults rs).filter (fun p => p.1)).map Prod.snd

/-- `failRes`: records pushed on the failure branch. -/
def failResOf (rs : List (Except String (Bool × UploadedFileInfo))) :
    List UploadedFileInfo :=
  ((okResults rs).filter (fun p => !p.1)).map Prod.snd

/-- Profile resolution:
`uploaderProfiles.find(p => p.id === (customUploaderProfileId || defaultUploaderProfileId))`. -/
def resolveProfile (env : Env) (customUploaderProfileId : String) :
    Option UploaderProfile :=
  env.uploaderProfiles.find? (fun p =>
    p.id = (if customUploaderProfileId = ""
            then env.defaultUploaderProfileId
            else customUploaderProfileId))

/-- The notification body of the `!uploaderProfile` branch. -/
def resolutionFailureBody (customUploaderProfileId : String)
    (uploaderProfiles : List UploaderProfile) : String :=
  if customUploaderProfileId ≠ "" then "上传器配置不存在"
  else if uploaderProfiles.length > 0 then "请配置默认的上传器"
  else "请添加上传器配置"

/-- The body of `upload` after profile and backend resolution succeeded:
fan-out, `Promise.all`, `handleAddHistory`, the `isFromFileManage` IPC
push, and the presentation step — all inside the surrounding
`try`/`catch`, whose notification is `上传操作异常`/`err.message`. -/
def uploadWithUploader (env : Env) (files : List String)
    (dir : Option String) (mng : Bool) (prof : UploaderProfile)
    (u : UploaderBehavior) : UploadOut :=
  let results := runFiles env prof.id u dir mng files
  let base : UploadOut :=
    { backendCalls := files.length, optionsApplied := some prof.uploaderOptions }
  match firstErr results with
  | some e => { base with notifications := [⟨"上传操作异常", e, false⟩] }
  | none =>
    let sRes := successResOf results
    let fRes := failResOf results
    let ipcList :=
      (if env.winDestroyed then [] else ["uploaded-files-get-reply"]) ++
        (if mng then ["file-upload-reply"] else [])
    if files.length > 1 then
      { base with
        history := [fRes ++ sRes]
        ipcEvents := ipcList
        notifications := [handleBatchUploaded sRes.length fRes.length] }
    else
      match handleSingleUploaded env.config env.clipboardText sRes.head? fRes.head? with
      | .ok so =>
        { base with
          history := [fRes ++ sRes]
          ipcEvents := ipcList
          notifications := so.notifications
          scheduledNotifications := so.scheduledNotifications
          clipboardWrites := so.clipboardWrites
          scheduledRestores := so.scheduledRestores }
      | .error e =>
        { base with
          history := [fRes ++ sRes]
          ipcEvents := ipcList
          notifications := [⟨"上传操作异常", e, false⟩] }

/-- `UploaderManager.upload(files, customUploaderProfileId = '',
directoryPath?, isFromFileManage = false)`. -/
def upload (env : Env) (files : List String) (customUploaderProfileId : String)
    (directoryPath : Option String) (isFromFileManage : Bool) : UploadOut :=
  match resolveProfile env customUploaderProfileId with
  | none =>
    { notifications :=
        [⟨"上传操作异常",
          resolutionFailureBody customUploaderProfileId env.uploaderProfiles, false⟩]
      returnedFalse := true }
  | some prof =>
    match env.registry prof.uploaderName with
    | none =>
      { notifications :=
          [⟨"上传操作异常", "没有找到" ++ prof.uploaderName ++ "上传器", false⟩]
        returnedFalse := true }
    | some u => uploadWithUploader env files directoryPath isFromFileManage prof u

/-- `UploaderManager.getUploader(id)`: resolve the profile by the given
id (not the default) and the backend by its name; `undefined` on either
miss.  (It also applies `changeOptions`, which has no further observable
effect here.) -/
def getUploader (env : Env) (id : String) : Option UploaderBehavior :=
  match env.uploaderProfiles.find? (fun q => q.id = id) with
  | none => none
  | some prof =>
    match env.registry prof.uploaderName with
    | some u => some u
    | none => none

/-- `UploaderManager.getFileList`: the reply event and payload sent to
the UI transport.  The source contains no notification and no throw on
the fallback branch; the model returns the reply only. -/
def getFileListM (env : Env) (id : String) (dir : Option String) :
    String × List String :=
  match getUploader env id with
  | some u =>
    match u.getFileList with
    | some f => ("file-list-get-reply", f dir)
    | none => ("file-list-get-reply", [])
  | none => ("file-list-get-reply", [])

/-- `UploaderManager.deleteFile`: reply event and payload. -/
def deleteFileM (env : Env) (id : String) (fileNames : List String) :
    String × Bool :=
  match getUploader env id with
  | some u =>
    match u.deleteFile with
    | some f => ("file-delete-reply", f fileNames)
    | none => ("file-delete-reply", false)
  | none => ("file-delete-reply", false)

/-- `UploaderManager.createDirectory`: reply event and payload. -/
def createDirectoryM (env : Env) (id : String) (directoryPath : String) :
    String × Bool :=
  match getUploader env id with
  | some u =>
    match u.createDirectory with
    | some f => ("directory-create-reply", f directoryPath)
    | none => ("directory-create-reply", false)
  | none => ("directory-create-reply", false)

/-!
### The templated HTTP uploader (`CustomUploader`)
-/

/-- JSON-ish values (a JavaScript value as seen by the uploader).
Objects are represented as a key/value chain. -/
inductive JValue where
  | jnull
  | jbool (b : Bool)
  | jnum (n : Int)
  | jstr (s : String)
  | jobjNil
  | jobjCons (key : String) (val : JValue) (rest : JValue)
deriving Repr, DecidableEq

/-- JavaScript optional-chained property access `o?.[k]`: `undefined`
(`none`) unless `o` is an object carrying the key. -/
def jget : JValue → String → Option JValue
  | .jobjCons k v rest, key => if k = key then some v else jget rest key
  | _, _ => none

/-- JavaScript truthiness of a value. -/
def truthy : JValue → Bool
  | .jnull => false
  | .jbool b => b
  | .jnum n => n != 0
  | .jstr s => s != ""
  | .jobjNil => true
  | .jobjCons _ _ _ => true

/-- The flat `Config` assembled by `CustomUploader.getConfig`. -/
structure CustomConfig where
  url : String
  method : String
  contentType : String
  fileFieldName : String
  responseUrlFieldName : String
  requestParams : Option String := none
  requestBody : Option String := none
deriving Repr, DecidableEq

/-- The `form-data` object: the appended entries, each a field name and
the path of the file streamed under it. -/
structure FormDataModel where
  entries : List (String × String)
deriving Repr, DecidableEq

/-- The `data` field of the outgoing axios request.  The code only ever
produces `form` (the FormData object) or `raw` (the literal
`requestBody` string, possibly `undefined`); `json` represents a
JSON-parsed object body, which a JSON-decoding implementation would
produce instead of `raw`. -/
inductive ReqBody where
  | form (fd : FormDataModel)
  | raw (s : Option String)
  | json (v : JValue)
deriving Repr, DecidableEq

/-- The `AxiosRequestConfig` built by `CustomUploader.upload`. -/
structure ReqOpt where
  url : String
  method : String
  headers : List (String × String)
  params : JValue
  data : ReqBody
deriving Repr, DecidableEq

/-- The external libraries the uploader calls: `formData.getLength`
(may fail), `formData.getHeaders`, `JSON.parse` (may throw) and the
`axios` transport (whose `.ok` value is the JSON response body and
whose `.error` is a thrown transport exception's message). -/
structure CEnv where
  getLength : FormDataModel → Except String Nat
  formHeaders : FormDataModel → List (String × String)
  parseJson : String → Except String JValue
  axios : ReqOpt → Except String JValue

/-- `uploaderOptions.requestParams ? JSON.parse(requestParams) : {}`
(an absent or empty template is falsy and yields `{}`). -/
def parseParams (env : CEnv) (cfg : CustomConfig) : Except String JValue :=
  match cfg.requestParams with
  | some s => if s = "" then .ok .jobjNil else env.parseJson s
  | none => .ok .jobjNil

/-- Lines 28–49 of `CustomUploader.upload`: append the file stream to a
fresh FormData under `fileFieldName`, compute the multipart byte length,
and build the request: multipart form headers plus `Content-Length`
always; `data` is the FormData exactly when the configured content type
is `multipart/form-data`, and otherwise the raw `requestBody` string. -/
def buildRequest (env : CEnv) (cfg : CustomConfig) (filePath : String) :
    Except String ReqOpt :=
  let formData : FormDataModel := ⟨[(cfg.fileFieldName, filePath)]⟩
  match env.getLength formData with
  | .error e => .error e
  | .ok length =>
    match parseParams env cfg with
    | .error e => .error e
    | .ok ps =>
      .ok { url := cfg.url
            method := cfg.method
            headers := env.formHeaders formData ++ [("Content-Length", toString length)]
            params := ps
            data := if cfg.contentType = "multipart/form-data"
                    then .form formData else .raw cfg.requestBody }

/-- The uploader's returned outcome: `SuccessResponse` carrying the
extracted url value, or `FailResponse` carrying a description. -/
inductive CResp where
  | succ (url : JValue)
  | fail (desc : String)
deriving Repr, DecidableEq

/-- `res?.data?.[responseUrlFieldName]`. -/
def extractUrl (res : JValue) (field : String) : Option JValue :=
  (jget res "data").bind (fun d => jget d field)

/-- `CustomUploader.upload(filePath, fileName)`: build the request,
issue it, and test `if (imageUrl)` on the extracted field; every thrown
exception is caught by the enclosing `try` and returned as a failure
with the exception's message.  (`fileName` is accepted but unused by the
source.) -/
def customUpload (env : CEnv) (cfg : CustomConfig)
    (filePath fileName : String) : CResp :=
  match buildRequest env cfg filePath with
  | .error e => .fail e
  | .ok req =>
    match env.axios req with
    | .error e => .fail e
    | .ok res =>
      match extractUrl res cfg.responseUrlFieldName with
      | some v => if truthy v then .succ v else .fail "上传失败"
      | none => .fail "上传失败"

/-!
### Concrete environments used to evaluate the model
-/

/-- Preference set: `urlType = URL`, auto-copy on, auto-recover off,
sound off, notifications on. -/
def cfgCopy : AppConfig := ⟨"URL", true, false, false, true⟩

/-- A backend whose upload always succeeds with a fixed url. -/
def okUploader : UploaderBehavior :=
  { uploadFn := fun _ _ _ _ => .ok (.success "https://x/y.png") }

/-- A backend that throws on `a.png` and succeeds on everything else. -/
def throwOnA : UploaderBehavior :=
  { uploadFn := fun f _ _ _ =>
      if f = "a.png" then .error "boom" else .ok (.success "https://ok/u.png") }

/-- A backend that reports failure on `bad` and succeeds elsewhere. -/
def mixedUploader : UploaderBehavior :=
  { uploadFn := fun f _ _ _ =>
      if f = "bad" then .ok (.failure "err") else .ok (.success "https://ok/u.png") }

/-- An ambient state with one stored profile `p` naming backend
`custom`, which the registry resolves to the given behavior. -/
def baseEnv (u : UploaderBehavior) : Env :=
  { defaultUploaderProfileId := "p"
    uploaderProfiles := [⟨"p", "custom", [("url", "https://srv")]⟩]
    registry := fun n => if n = "custom" then some u else none
    config := cfgCopy
    clipboardText := "old"
    winDestroyed := false
    genId := fun i => "id" ++ toString i
    genName := fun i => "n" ++ toString i
    extname := fun _ => ".png"
    mimeLookup := fun _ => some "image/png"
    now := 0 }

def envOk : Env := baseEnv okUploader

def envThrow : Env := baseEnv throwOnA

def envMixed : Env := baseEnv mixedUploader

/-- The stored profile of `baseEnv`. -/
def profP : UploaderProfile := ⟨"p", "custom", [("url", "https://srv")]⟩

/-- A single-file success record as used by the presenter theorems. -/
def sfRec : UploadedFileInfo :=
  { id := "i"
    name := "n"
    url := some "https://x/y.png"
    type := "image/png"
    uploaderProfileId := "p"
    path := "a.png"
    date := 0 }

/-- Preference set with an unrecognized `urlType`. -/
def cfgOddUrlType : AppConfig := ⟨"copy", true, false, false, true⟩

/-- Uploader configuration: multipart content type, file field `file`,
response url field `url`. -/
def cfg5 : CustomConfig :=
  { url := "https://srv/up"
    method := "POST"
    contentType := "multipart/form-data"
    fileFieldName := "file"
    responseUrlFieldName := "url" }

/-- Uploader configuration with a non-multipart content type and a
literal JSON request-body template `"7"`. -/
def cfg6 : CustomConfig :=
  { url := "https://srv/up"
    method := "POST"
    contentType := "application/json"
    fileFieldName := "file"
    responseUrlFieldName := "url"
    requestBody := some "7" }

/-- Library environment whose transport answers with a body whose
`data.url` field is present but holds the empty string. -/
def cenvEmptyUrl : CEnv :=
  { getLength := fun _ => .ok 123
    formHeaders := fun _ => [("content-type", "multipart/form-data; boundary=x")]
    parseJson := fun _ => .error "SyntaxError"
    axios := fun _ => .ok (.jobjCons "data" (.jobjCons "url" (.jstr "") .jobjNil) .jobjNil) }

/-- Library environment whose transport answers with `data.url` set to
a real url string. -/
def cenvSucc : CEnv :=
  { getLength := fun _ => .ok 123
    formHeaders := fun _ => [("content-type", "multipart/form-data; boundary=x")]
    parseJson := fun _ => .error "SyntaxError"
    axios := fun _ =>
      .ok (.jobjCons "data" (.jobjCons "url" (.jstr "https://x/y.png") .jobjNil) .jobjNil) }

/-- Library environment whose `JSON.parse` knows the template `"7"`. -/
def cenvParse : CEnv :=
  { getLength := fun _ => .ok 123
    formHeaders := fun _ => [("content-type", "multipart/form-data; boundary=x")]
    parseJson := fun s => if s = "7" then .ok (.jnum 7) else .error "SyntaxError"
    axios := fun _ => .ok .jnull }

/-- The request `buildRequest cenvParse cfg6 "f.png"` produces. -/
def req6 : ReqOpt :=
  { url := "https://srv/up"
    method := "POST"
    headers := [("content-type", "multipart/form-data; boundary=x"), ("Content-Length", "123")]
    params := .jobjNil
    data := .raw (some "7") }

/-- The request `buildRequest cenvSucc cfg5 "f.png"` produces. -/
def req5 : ReqOpt :=
  { url := "https://srv/up"
    method := "POST"
    headers := [("content-type", "multipart/form-data; boundary=x"), ("Content-Length", "123")]
    params := .jobjNil
    data := .form ⟨[("file", "f.png")]⟩ }

/-!
### Helper lemmas
-/

theorem runFilesAux_length (env : Env) (pid : String) (u : UploaderBehavior)
    (dir : Option String) (mng : Bool) :
    ∀ (files : List String) (i : Nat),
      (runFilesAux env pid u dir mng i files).length = files.length := by
  intro files
  induction files with
  | nil => intro i; rfl
  | cons f fs ih => intro i; simp [runFilesAux, ih]

theorem okResults_length_of_firstErr_none :
    ∀ rs, firstErr rs = none → (okResults rs).length = rs.length := by
  intro rs
  induction rs with
  | nil => intro _; rfl
  | cons r rest ih =>
    intro h
    cases r with
    | error e => simp [firstErr] at h
    | ok a =>
      simp only [firstErr] at h
      simp only [okResults, List.length_cons, ih h]

theorem length_filter_split (l : List (Bool × UploadedFileInfo)) :
    (l.filter (fun p => p.1)).length + (l.filter (fun p => !p.1)).length = l.length := by
  induction l with
  | nil => rfl
  | cons a t ih =>
    cases h : a.1 <;> simp [List.filter_cons, h] <;> omega

theorem processFile_ok_path (env : Env) (pid : String) (u : UploaderBehavior)
    (dir : Option String) (mng : Bool) (i : Nat) (f : String) :
    ∀ r, processFile env pid u dir mng i f = .ok r → r.2.path = f := by
  intro r h
  simp only [processFile] at h
  cases hu : u.uploadFn f (env.genName i ++ env.extname f) dir mng with
  | error e => rw [hu] at h; cases h
  | ok res =>
    rw [hu] at h
    cases res with
    | success url => cases h; rfl
    | failure desc => cases h; rfl

theorem runFilesAux_paths (env : Env) (pid : String) (u : UploaderBehavior)
    (dir : Option String) (mng : Bool) :
    ∀ (files : List String) (i : Nat),
      firstErr (runFilesAux env pid u dir mng i files) = none →
      (okResults (runFilesAux env pid u dir mng i files)).map (fun p => p.2.path) = files := by
  intro files
  induction files with
  | nil => intro i _; rfl
  | cons f fs ih =>
    intro i h
    cases hr : processFile env pid u dir mng i f with
    | error e =>
      simp only [runFilesAux, hr, firstErr] at h
      exact Option.noConfusion h
    | ok a =>
      simp only [runFilesAux, hr, firstErr] at h
      simp only [runFilesAux, hr, okResults, List.map_cons, List.cons.injEq]
      exact ⟨processFile_ok_path env pid u dir mng i f a hr, ih (i + 1) h⟩

theorem records_paths_perm (env : Env) (pid : String) (u : UploaderBehavior)
    (dir : Option String) (mng : Bool) (files : List String)
    (h : firstErr (runFiles env pid u dir mng files) = none) :
    ((failResOf (runFiles env pid u dir mng files) ++
      successResOf (runFiles env pid u dir mng files)).map (fun r => r.path)).Perm
      files := by
  have hperm :
      ((okResults (runFiles env pid u dir mng files)).filter (fun p => !p.1) ++
        (okResults (runFiles env pid u dir mng files)).filter (fun p => p.1)).Perm
        (okResults (runFiles env pid u dir mng files)) :=
    (List.perm_append_comm).trans
      (List.filter_append_perm (fun p : Bool × UploadedFileInfo => p.1) _)
  have hmap := hperm.map (fun p => p.2.path)
  have hre :
      (failResOf (runFiles env pid u dir mng files) ++
        successResOf (runFiles env pid u dir mng files)).map (fun r => r.path) =
      ((okResults (runFiles env pid u dir mng files)).filter (fun p => !p.1) ++
        (okResults (runFiles env pid u dir mng files)).filter (fun p => p.1)).map
        (fun p => p.2.path) := by
    simp [failResOf, successResOf, List.map_append, List.map_map, Function.comp_def]
  rw [hre]
  have hpaths :
      (okResults (runFiles env pid u dir mng files)).map (fun p => p.2.path) = files :=
    runFilesAux_paths env pid u dir mng files 0 h
  exact hmap.trans (by rw [hpaths])

theorem runFiles_flag_eq (env : Env) (pid : String) (u : UploaderBehavior)
    (dir : Option String)
    (h : ∀ f n d, u.uploadFn f n d true = u.uploadFn f n d false) :
    ∀ (files : List String) (i : Nat),
      runFilesAux env pid u dir true i files = runFilesAux env pid u dir false i files := by
  intro files
  induction files with
  | nil => intro i; rfl
  | cons f fs ih =>
    intro i
    have hp : processFile env pid u dir true i f = processFile env pid u dir false i f := by
      simp only [processFile, h]
    simp only [runFilesAux, hp, ih (i + 1)]

/-!
### Claim theorems
-/

/-- C4: when profile resolution in `UploaderManager.upload` finds no
matching profile, the orchestrator reports exactly one of three
distinguishable failures — `上传器配置不存在` (profile not found) when an
explicit non-empty profile id was given, `请添加上传器配置` (no profile
configured) when zero profiles exist, `请配置默认的上传器` (default not
set) when profiles exist but the default id matches none — shows it once
as a notification, appends nothing to history, and does not invoke any
backend upload (all other effect channels of the output are empty and
the call returns false). -/
theorem c4_resolution_failure (env : Env) (files : List String)
    (customUploaderProfileId : String) (dir : Option String) (mng : Bool)
    (h : resolveProfile env customUploaderProfileId = none) :
    upload env files customUploaderProfileId dir mng =
      { notifications :=
          [⟨"上传操作异常",
            (if customUploaderProfileId ≠ "" then "上传器配置不存在"
             else if env.uploaderProfiles.length > 0 then "请配置默认的上传器"
             else "请添加上传器配置"), false⟩]
        returnedFalse := true } := by
  unfold upload
  rw [h]
  rfl

/-- C4 witness: an explicit id `zzz` that matches no stored profile of
`envOk` yields exactly the profile-not-found notification, no history
append and no backend call. -/
theorem c4_resolution_failure_witness :
    resolveProfile envOk "zzz" = none ∧
    upload envOk ["a.png"] "zzz" none false =
      { notifications := [⟨"上传操作异常", "上传器配置不存在", false⟩]
        returnedFalse := true } := by
  refine ⟨rfl, ?_⟩
  exact c4_resolution_failure envOk ["a.png"] "zzz" none false rfl

/-- C8: in the single-file success path, any `urlType` other than
`URL`, `HTML` or `Markdown` makes `handleSingleUploaded` return the
success record's raw url and produce no effect at all: no clipboard
write, no notification, nothing scheduled. -/
theorem c8_unknown_url_type (cfg : AppConfig) (clipText : String)
    (sf : UploadedFileInfo) (ff : Option UploadedFileInfo)
    (h1 : cfg.urlType ≠ "URL") (h2 : cfg.urlType ≠ "HTML")
    (h3 : cfg.urlType ≠ "Markdown") :
    handleSingleUploaded cfg clipText (some sf) ff = .ok { retVal := sf.url } := by
  simp only [handleSingleUploaded, if_neg h1, if_neg h2, if_neg h3]

/-- C8 witness: with `urlType = copy` the single-success presenter
returns the raw url and performs no side effect. -/
theorem c8_unknown_url_type_witness :
    cfgOddUrlType.urlType ≠ "URL" ∧
    handleSingleUploaded cfgOddUrlType "old" (some sfRec) none =
      .ok { retVal := some "https://x/y.png" } := by
  refine ⟨by decide, ?_⟩
  exact c8_unknown_url_type cfgOddUrlType "old" sfRec none
    (by decide) (by decide) (by decide)

/-- C1 counterexample: in `envThrow` the upload of `a.png` throws
`boom` while the sibling `b.png` succeeds; the claim would require a
per-file failure outcome carrying `boom` (and the sibling's success) to
be aggregated and appended to history, but the batch reaches the
`catch` instead: history receives nothing and the whole batch collapses
into the single `上传操作异常` notification. -/
theorem c1_no_per_file_catch :
    throwOnA.uploadFn "a.png" "n0.png" none false = .error "boom" ∧
    throwOnA.uploadFn "b.png" "n1.png" none false = .ok (.success "https://ok/u.png") ∧
    (upload envThrow ["a.png", "b.png"] "p" none false).history = [] ∧
    (upload envThrow ["a.png", "b.png"] "p" none false).notifications =
      [⟨"上传操作异常", "boom", false⟩] :=
  ⟨rfl, rfl, rfl, rfl⟩

/-- C1 amended: an exception thrown by an individual file's backend
upload call is caught by the batch-level try/catch of
`UploaderManager.upload`, not per-file: the whole batch's aggregation is
skipped (no history append, no per-file failure record, no IPC push, no
presentation) and exactly one `上传操作异常` notification carrying the
exception's message is shown; the exception never propagates out of the
orchestrator. -/
theorem c1_batch_level_catch (env : Env) (files : List String)
    (c : String) (dir : Option String) (mng : Bool)
    (prof : UploaderProfile) (u : UploaderBehavior) (e : String)
    (h1 : resolveProfile env c = some prof)
    (h2 : env.registry prof.uploaderName = some u)
    (h3 : firstErr (runFiles env prof.id u dir mng files) = some e) :
    upload env files c dir mng =
      { backendCalls := files.length
        optionsApplied := some prof.uploaderOptions
        notifications := [⟨"上传操作异常", e, false⟩] } := by
  simp only [upload, h1, h2, uploadWithUploader]
  rw [h3]

/-- C1 witness: the batch-level catch at the concrete throwing batch. -/
theorem c1_batch_level_catch_witness :
    resolveProfile envThrow "p" = some profP ∧
    firstErr (runFiles envThrow "p" throwOnA none false ["a.png", "b.png"]) = some "boom" ∧
    upload envThrow ["a.png", "b.png"] "p" none false =
      { backendCalls := 2
        optionsApplied := some [("url", "https://srv")]
        notifications := [⟨"上传操作异常", "boom", false⟩] } := by
  refine ⟨rfl, rfl, ?_⟩
  exact c1_batch_level_catch envThrow ["a.png", "b.png"] "p" none false
    profP throwOnA "boom" rfl rfl rfl

/-- C7: a zero-file batch that passes resolution is NOT a no-op after
the history append: `handleSingleUploaded` is called with two undefined
records, throws the TypeError of reading `errorMessage` of undefined,
and the batch-level catch shows an `上传操作异常` notification.  The
model evaluates the code at the failing input `files = []`. -/
theorem c7_zero_file_batch :
    upload envOk [] "p" none false =
      { history := [[]]
        ipcEvents := ["uploaded-files-get-reply"]
        notifications := [⟨"上传操作异常", undefinedReadErrorMessage, false⟩]
        backendCalls := 0
        optionsApplied := some [("url", "https://srv")] } ∧
    handleSingleUploaded cfgCopy "old" none none = .error undefinedReadErrorMessage :=
  ⟨rfl, rfl⟩

/-- C3 counterexample: a managed-mode (`isFromFileManage = true`)
single-file upload in `envOk` does signal `file-upload-reply`, but it
also writes the clipboard and shows the result-summary notification —
the presentation step is not skipped, refuting the claim. -/
theorem c3_managed_mode_still_presents :
    (upload envOk ["a.png"] "p" none true).clipboardWrites = ["https://x/y.png"] ∧
    (upload envOk ["a.png"] "p" none true).notifications =
      [⟨"上传成功", "链接已自动复制到粘贴板", true⟩] ∧
    (upload envOk ["a.png"] "p" none true).ipcEvents =
      ["uploaded-files-get-reply", "file-upload-reply"] :=
  ⟨rfl, rfl, rfl⟩

/-- C3 amended: when resolution succeeds, the backend ignores the
managed-mode flag and no per-file upload throws, a managed-mode call
differs from the unmanaged call by exactly one extra effect: the
`file-upload-reply` IPC event appended after the history push.  All
other effects — clipboard writes, result-summary notifications, history
— are identical; the presentation is not suppressed. -/
theorem c3_managed_adds_reply_only (env : Env) (files : List String)
    (c : String) (dir : Option String)
    (prof : UploaderProfile) (u : UploaderBehavior)
    (h1 : resolveProfile env c = some prof)
    (h2 : env.registry prof.uploaderName = some u)
    (h3 : ∀ f n d, u.uploadFn f n d true = u.uploadFn f n d false)
    (h4 : firstErr (runFiles env prof.id u dir false files) = none) :
    upload env files c dir true =
      { upload env files c dir false with
        ipcEvents := (upload env files c dir false).ipcEvents ++ ["file-upload-reply"] } := by
  have hrw : runFiles env prof.id u dir true files = runFiles env prof.id u dir false files :=
    runFiles_flag_eq env prof.id u dir h3 files 0
  simp only [upload, h1, h2, uploadWithUploader, hrw, h4]
  split
  · simp
  · split <;> simp

/-- C3 witness: the amended statement at a concrete successful
single-file managed upload. -/
theorem c3_managed_adds_reply_only_witness :
    firstErr (runFiles envOk "p" okUploader none false ["a.png"]) = none ∧
    upload envOk ["a.png"] "p" none true =
      { upload envOk ["a.png"] "p" none false with
        ipcEvents := (upload envOk ["a.png"] "p" none false).ipcEvents ++
          ["file-upload-reply"] } := by
  refine ⟨rfl, ?_⟩
  exact c3_managed_adds_reply_only envOk ["a.png"] "p" none profP okUploader
    rfl rfl (fun _ _ _ => rfl) rfl

/-- C2: for every file batch that reaches the aggregation step (profile
and backend resolved, no per-file upload threw), the success partition
length plus the failure partition length equals the number of input
files; exactly one `history.add` call is made, carrying exactly one
record per input file (failures first): the appended records' paths are
a permutation of the input file list. -/
theorem c2_aggregation_invariant (env : Env) (files : List String)
    (c : String) (dir : Option String) (mng : Bool)
    (prof : UploaderProfile) (u : UploaderBehavior)
    (h1 : resolveProfile env c = some prof)
    (h2 : env.registry prof.uploaderName = some u)
    (h3 : firstErr (runFiles env prof.id u dir mng files) = none)
    (h4 : files ≠ []) :
    (successResOf (runFiles env prof.id u dir mng files)).length +
      (failResOf (runFiles env prof.id u dir mng files)).length = files.length ∧
    (upload env files c dir mng).history =
      [failResOf (runFiles env prof.id u dir mng files) ++
        successResOf (runFiles env prof.id u dir mng files)] ∧
    ((failResOf (runFiles env prof.id u dir mng files) ++
      successResOf (runFiles env prof.id u dir mng files)).map (fun r => r.path)).Perm
      files := by
  refine ⟨?_, ?_, records_paths_perm env prof.id u dir mng files h3⟩
  · have hl1 : (okResults (runFiles env prof.id u dir mng files)).length =
        (runFiles env prof.id u dir mng files).length :=
      okResults_length_of_firstErr_none _ h3
    have hl2 : (runFiles env prof.id u dir mng files).length = files.length :=
      runFilesAux_length env prof.id u dir mng files 0
    have hsplit := length_filter_split (okResults (runFiles env prof.id u dir mng files))
    simp only [successResOf, failResOf, List.length_map]
    omega
  · simp only [upload, h1, h2, uploadWithUploader, h3]
    split
    · rfl
    · split <;> rfl

/-- C2 witness: a three-file batch with one reported failure yields a
2 + 1 partition and a single history append of three records. -/
theorem c2_aggregation_invariant_witness :
    firstErr (runFiles envMixed "p" mixedUploader none false ["a.png", "bad", "c.png"]) = none ∧
    (successResOf (runFiles envMixed "p" mixedUploader none false ["a.png", "bad", "c.png"])).length +
      (failResOf (runFiles envMixed "p" mixedUploader none false ["a.png", "bad", "c.png"])).length = 3 ∧
    (upload envMixed ["a.png", "bad", "c.png"] "p" none false).history =
      [failResOf (runFiles envMixed "p" mixedUploader none false ["a.png", "bad", "c.png"]) ++
        successResOf (runFiles envMixed "p" mixedUploader none false ["a.png", "bad", "c.png"])] := by
  have h := c2_aggregation_invariant envMixed ["a.png", "bad", "c.png"] "p" none false
    profP mixedUploader rfl rfl rfl (by decide)
  exact ⟨rfl, h.1, h.2.1⟩

/-- C5 counterexample: the transport answers with a body whose
`data.url` field is present but holds `""`; the claim requires a
success outcome for any present field, but `CustomUploader.upload`
tests truthiness (`if (imageUrl)`) and reports the generic failure. -/
theorem c5_present_but_falsy_field :
    extractUrl (.jobjCons "data" (.jobjCons "url" (.jstr "") .jobjNil) .jobjNil) "url" =
      some (.jstr "") ∧
    customUpload cenvEmptyUrl cfg5 "f.png" "n.png" = .fail "上传失败" :=
  ⟨rfl, rfl⟩

/-- C5 amended: given a successfully built request, a transport-level
exception is caught and returned as a failure outcome carrying the
exception's message (never propagated); a response whose
`data.<responseUrlFieldName>` is present AND truthy yields a success
outcome carrying that value; a response whose field is absent — or
present but falsy, such as the empty string — yields the generic
`上传失败` failure with no thrown error. -/
theorem c5_outcome_classification (env : CEnv) (cfg : CustomConfig)
    (fp fn : String) (req : ReqOpt)
    (hb : buildRequest env cfg fp = .ok req) :
    (∀ e, env.axios req = .error e → customUpload env cfg fp fn = .fail e) ∧
    (∀ res v, env.axios req = .ok res →
      extractUrl res cfg.responseUrlFieldName = some v →
      (truthy v = true → customUpload env cfg fp fn = .succ v) ∧
      (truthy v = false → customUpload env cfg fp fn = .fail "上传失败")) ∧
    (∀ res, env.axios req = .ok res →
      extractUrl res cfg.responseUrlFieldName = none →
      customUpload env cfg fp fn = .fail "上传失败") := by
  refine ⟨?_, ?_, ?_⟩
  · intro e he
    simp [customUpload, hb, he]
  · intro res v hres hv
    constructor
    · intro ht
      simp [customUpload, hb, hres, hv, ht]
    · intro hf
      simp [customUpload, hb, hres, hv, hf]
  · intro res hres hnone
    simp [customUpload, hb, hres, hnone]

/-- C5 witness: a present, truthy `data.url` value yields the success
outcome carrying it. -/
theorem c5_outcome_classification_witness :
    buildRequest cenvSucc cfg5 "f.png" = .ok req5 ∧
    customUpload cenvSucc cfg5 "f.png" "n.png" = .succ (.jstr "https://x/y.png") := by
  refine ⟨rfl, ?_⟩
  have h := c5_outcome_classification cenvSucc cfg5 "f.png" "n.png" req5 rfl
  exact (h.2.1 _ (.jstr "https://x/y.png") rfl rfl).1 rfl

/-- C6 counterexample: with content type `application/json` and the
literal request-body template `"7"` (which `JSON.parse` would decode to
the number 7), the built request's body is the raw string `"7"`, not
the parsed value: only the query-params template is JSON-parsed. -/
theorem c6_body_not_parsed :
    cenvParse.parseJson "7" = .ok (.jnum 7) ∧
    buildRequest cenvParse cfg6 "f.png" = .ok req6 ∧
    req6.data = .raw (some "7") ∧
    req6.data ≠ .json (.jnum 7) :=
  ⟨rfl, rfl, rfl, by decide⟩

/-- C6 amended: when the configured content type is
`multipart/form-data` the request body is the form streaming the file
under the configured field name, with `Content-Length` equal to the
multipart byte length computed up front; for any other content type the
body is the raw, unparsed literal request-body string from the
configuration (the JSON-decoding applies only to the query-params
template). -/
theorem c6_body_selection (env : CEnv) (cfg : CustomConfig) (fp : String)
    (n : Nat) (ps : JValue)
    (hl : env.getLength ⟨[(cfg.fileFieldName, fp)]⟩ = .ok n)
    (hp : parseParams env cfg = .ok ps) :
    (cfg.contentType = "multipart/form-data" →
      buildRequest env cfg fp = .ok
        { url := cfg.url
          method := cfg.method
          headers := env.formHeaders ⟨[(cfg.fileFieldName, fp)]⟩ ++
            [("Content-Length", toString n)]
          params := ps
          data := .form ⟨[(cfg.fileFieldName, fp)]⟩ }) ∧
    (cfg.contentType ≠ "multipart/form-data" →
      buildRequest env cfg fp = .ok
        { url := cfg.url
          method := cfg.method
          headers := env.formHeaders ⟨[(cfg.fileFieldName, fp)]⟩ ++
            [("Content-Length", toString n)]
          params := ps
          data := .raw cfg.requestBody }) := by
  constructor
  · intro hm
    simp [buildRequest, hl, hp, hm]
  · intro hm
    simp [buildRequest, hl, hp, hm]

/-- C6 witness: the amended body selection at the concrete
`application/json` configuration. -/
theorem c6_body_selection_witness :
    cfg6.contentType ≠ "multipart/form-data" ∧
    buildRequest cenvParse cfg6 "f.png" = .ok req6 := by
  refine ⟨by decide, ?_⟩
  have h := c6_body_selection cenvParse cfg6 "f.png" 123 .jobjNil rfl rfl
  exact h.2 (by decide)

/-- C9: every request built by `CustomUploader.upload`, regardless of
the configured content type, appends the file to a multipart form under
the configured field name, carries the multipart form-data headers, and
sets `Content-Length` to the byte length of that multipart encoding —
even when the body actually sent is the raw `requestBody` string rather
than the form. -/
theorem c9_always_multipart_request (env : CEnv) (cfg : CustomConfig)
    (fp : String) (n : Nat) (ps : JValue)
    (hl : env.getLength ⟨[(cfg.fileFieldName, fp)]⟩ = .ok n)
    (hp : parseParams env cfg = .ok ps) :
    buildRequest env cfg fp = .ok
      { url := cfg.url
        method := cfg.method
        headers := env.formHeaders ⟨[(cfg.fileFieldName, fp)]⟩ ++
          [("Content-Length", toString n)]
        params := ps
        data := if cfg.contentType = "multipart/form-data"
                then .form ⟨[(cfg.fileFieldName, fp)]⟩
                else .raw cfg.requestBody } := by
  simp [buildRequest, hl, hp]

/-- C9 witness: a non-multipart configuration still produces the
multipart headers and the multipart `Content-Length` while sending the
raw body. -/
theorem c9_always_multipart_request_witness :
    cenvParse.getLength ⟨[("file", "f.png")]⟩ = .ok 123 ∧
    buildRequest cenvParse cfg6 "f.png" = .ok
      { url := "https://srv/up"
        method := "POST"
        headers := [("content-type", "multipart/form-data; boundary=x"),
          ("Content-Length", "123")]
        params := .jobjNil
        data := .raw (some "7") } := by
  refine ⟨rfl, ?_⟩
  exact c9_always_multipart_request cenvParse cfg6 "f.png" 123 .jobjNil rfl rfl

/-- C10: for `getFileList`, `deleteFile` and `createDirectory`, a
profile id matching no stored profile, or a matched profile whose
backend name is unknown to the registry, yields exactly the same reply
as a resolved backend lacking the optional capability — an empty list
for `getFileList` and `false` for the other two — with no notification
and no thrown error (the reply is total and is the only effect). -/
theorem c10_fallback_replies (env : Env) (id : String)
    (dir : Option String) (names : List String) (p : String) :
    ((env.uploaderProfiles.find? (fun q => q.id = id) = none ∨
      (∃ prof, env.uploaderProfiles.find? (fun q => q.id = id) = some prof ∧
        env.registry prof.uploaderName = none)) →
      getFileListM env id dir = ("file-list-get-reply", []) ∧
      deleteFileM env id names = ("file-delete-reply", false) ∧
      createDirectoryM env id p = ("directory-create-reply", false)) ∧
    (∀ u, getUploader env id = some u → u.getFileList = none →
      getFileListM env id dir = ("file-list-get-reply", [])) ∧
    (∀ u, getUploader env id = some u → u.deleteFile = none →
      deleteFileM env id names = ("file-delete-reply", false)) ∧
    (∀ u, getUploader env id = some u → u.createDirectory = none →
      createDirectoryM env id p = ("directory-create-reply", false)) := by
  have hnone : (env.uploaderProfiles.find? (fun q => q.id = id) = none ∨
      (∃ prof, env.uploaderProfiles.find? (fun q => q.id = id) = some prof ∧
        env.registry prof.uploaderName = none)) → getUploader env id = none := by
    intro h
    rcases h with h | ⟨prof, hp, hr⟩
    · simp [getUploader, h]
    · simp [getUploader, hp, hr]
  refine ⟨?_, ?_, ?_, ?_⟩
  · intro h
    have hg := hnone h
    exact ⟨by simp [getFileListM, hg], by simp [deleteFileM, hg],
      by simp [createDirectoryM, hg]⟩
  · intro u hu hcap
    simp [getFileListM, hu, hcap]
  · intro u hu hcap
    simp [deleteFileM, hu, hcap]
  · intro u hu hcap
    simp [createDirectoryM, hu, hcap]

/-- C10 witness: the unknown profile id `zzz` and the capability-free
backend of profile `p` produce the identical fallback replies. -/
theorem c10_fallback_replies_witness :
    envOk.uploaderProfiles.find? (fun q => q.id = "zzz") = none ∧
    getFileListM envOk "zzz" none = ("file-list-get-reply", []) ∧
    deleteFileM envOk "zzz" ["x"] = ("file-delete-reply", false) ∧
    createDirectoryM envOk "zzz" "d" = ("directory-create-reply", false) ∧
    getFileListM envOk "p" none = ("file-list-get-reply", []) := by
  have h := c10_fallback_replies envOk "zzz" none ["x"] "d"
  have h2 := c10_fallback_replies envOk "p" none ["x"] "d"
  have ha := h.1 (Or.inl rfl)
  exact ⟨rfl, ha.1, ha.2.1, ha.2.2, h2.2.1 okUploader rfl rfl⟩

end Aragorn
